import Mathlib

namespace BoshClassroom

/-! Shallow embedding of the bosh-classroom proctor code (proctor/aws/ec2.go):
    the AWS provider adapter operation Client.CreateKey / Client.DeleteKey and
    the controller workflows CreateClassroom, DestroyClassroom, ListClassrooms
    and DescribeClassroom.  Go functions returning a (value, error) pair are
    modelled as Except String values (on error Go returns the zero value, which
    the Except model drops).  The external collaborators (the EC2 SDK, the
    atlas client and the AWS client interface) are modelled as records of
    response functions, and each workflow additionally returns the ordered
    list of adapter calls it performed, so that call-order and call-counting
    properties can be stated.  Go maps are modelled as association lists with
    unique keys; logging (the cliLogger collaborator) is cosmetic in the
    source and is not modelled. -/

def isLowerAlpha (ch : Char) : Bool := 'a' ≤ ch && ch ≤ 'z'

def isUpperAlpha (ch : Char) : Bool := 'A' ≤ ch && ch ≤ 'Z'

def isAlphaChar (ch : Char) : Bool := isLowerAlpha ch || isUpperAlpha ch

def isDigitChar (ch : Char) : Bool := '0' ≤ ch && ch ≤ '9'

def isNameTailChar (ch : Char) : Bool := ch == '-' || isAlphaChar ch || isDigitChar ch

/-- The anchored regular expression of CreateClassroom, pattern
    ^[a-zA-Z][-a-zA-Z0-9]*$ from ec2.go line 84: a string matches exactly when
    it is one ASCII letter followed by letters, digits and hyphens. -/
def validName (s : String) : Bool :=
  match s.data with
  | [] => false
  | ch :: rest => isAlphaChar ch && rest.all isNameTailChar

/-- Go function prefix(classroomName) from ec2.go lines 79-81. -/
def prefixName (classroomName : String) : String := "classroom-" ++ classroomName

/-- Go strconv.Itoa on a (mathematical) integer. -/
def goItoa (n : Int) : String := toString n

def digitVal (ch : Char) : Nat := ch.toNat - '0'.toNat

/-- Go strconv.Atoi: optional sign, one or more ASCII digits, 64-bit range;
    none models a non-nil error (the error text is never inspected by the
    controller). -/
def goAtoi (s : String) : Option Int :=
  let signed : Bool × List Char :=
    match s.data with
    | '-' :: rest => (true, rest)
    | '+' :: rest => (false, rest)
    | l => (false, l)
  let neg := signed.1
  let ds := signed.2
  if ds.isEmpty then none
  else if ds.all isDigitChar then
    let mag : Nat := ds.foldl (fun acc ch => 10 * acc + digitVal ch) 0
    let v : Int := if neg then -(mag : Int) else (mag : Int)
    if v < -(2 ^ 63) || 2 ^ 63 - 1 < v then none else some v
  else none

def hexDigitChar (n : Nat) : Char :=
  if n < 10 then Char.ofNat ('0'.toNat + n) else Char.ofNat ('a'.toNat + (n - 10))

/-- One character of Go encoding/json string escaping (HTML escaping on, as
    json.Marshal defaults to). -/
def goJSONEscapeChar (ch : Char) : String :=
  if ch == '"' then "\\\""
  else if ch == '\\' then "\\\\"
  else if ch == '\n' then "\\n"
  else if ch == '\r' then "\\r"
  else if ch == '\t' then "\\t"
  else if ch == '<' then "\\u003c"
  else if ch == '>' then "\\u003e"
  else if ch == '&' then "\\u0026"
  else if ch.toNat < 0x20 then
    String.mk ['\\', 'u', '0', '0', hexDigitChar (ch.toNat / 16), hexDigitChar (ch.toNat % 16)]
  else if ch.toNat == 0x2028 then "\\u2028"
  else if ch.toNat == 0x2029 then "\\u2029"
  else String.singleton ch

def goJSONStringLit (s : String) : String :=
  "\"" ++ String.join (s.data.map goJSONEscapeChar) ++ "\""

/-- Go json.MarshalIndent of a string slice with empty line prefix and a
    four-space indent, as ListClassrooms uses it. -/
def goMarshalIndentStringList (keys : List String) : String :=
  match keys with
  | [] => "[]"
  | _ =>
    "[\n" ++ String.intercalate ",\n" (keys.map fun k => "    " ++ goJSONStringLit k) ++ "\n]"

def insertByKey (p : String × String) : List (String × String) → List (String × String)
  | [] => [p]
  | q :: rest => if p.1 ≤ q.1 then p :: q :: rest else q :: insertByKey p rest

/-- encoding/json serialises Go maps with their keys sorted. -/
def sortByKey (l : List (String × String)) : List (String × String) :=
  l.foldr insertByKey []

/-- Go json.MarshalIndent rendering of the hosts map, nested one indent level
    inside the description record. -/
def hostsJSON (hosts : List (String × String)) : String :=
  match sortByKey hosts with
  | [] => "\x7b\x7d"
  | l =>
    "\x7b\n" ++
      String.intercalate ",\n"
        (l.map fun p => "        " ++ goJSONStringLit p.1 ++ ": " ++ goJSONStringLit p.2) ++
      "\n    \x7d"

/-- Go json.MarshalIndent of the DescribeClassroom record, fields in struct
    declaration order: status, number, ssh_key, hosts. -/
def descriptionJSON (status : String) (number : Int) (sshKey : String)
    (hosts : List (String × String)) : String :=
  "\x7b\n    \"status\": " ++ goJSONStringLit status ++
  ",\n    \"number\": " ++ goItoa number ++
  ",\n    \"ssh_key\": " ++ goJSONStringLit sshKey ++
  ",\n    \"hosts\": " ++ hostsJSON hosts ++ "\n\x7d"

/-- The fmt.Sprintf plain rendering of DescribeClassroom (ec2.go lines
    200-210): labeled lines status, number, ssh_key, hosts, then one host per
    line as label TAB address. -/
def plainDescription (status : String) (number : Int) (sshKey : String)
    (hosts : List (String × String)) : String :=
  "status: " ++ status ++ "\nnumber: " ++ goItoa number ++
  "\nssh_key: " ++ sshKey ++ "\nhosts:\n" ++
  String.intercalate "\n" (hosts.map fun p => p.1 ++ "\t" ++ p.2)

/-- Go strings.HasPrefix, on the character lists of the strings (equivalent
    to Go byte-wise comparison for ASCII patterns such as classroom-). -/
def hasPre (s pre : String) : Bool := pre.data.isPrefixOf s.data

def dropChars (s : String) (n : Nat) : String := String.mk (s.data.drop n)

/-- Go strings.TrimPrefix: when the string starts with the pattern, the part
    after it; the string unchanged otherwise. -/
def trimPre (s pre : String) : String :=
  if hasPre s pre then dropChars s pre.data.length else s

/-- The ec2.CreateKeyPairOutput fields read by Client.CreateKey; both are
    pointers in the SDK, hence Option. -/
structure CreateKeyPairOutput where
  KeyName : Option String
  KeyMaterial : Option String
  deriving DecidableEq, Repr

/-- Fake of the EC2 SDK service handle held by the adapter Client. -/
structure EC2API where
  createKeyPair : String → Except String CreateKeyPairOutput
  deleteKeyPair : String → Except String Unit

structure Client where
  EC2 : EC2API

/-- Adapter operation Client.CreateKey, ec2.go lines 11-30. -/
def Client.CreateKey (c : Client) (name : String) : Except String String :=
  match c.EC2.createKeyPair name with
  | .error err => .error err
  | .ok out =>
    match out.KeyName with
    | none => .error "CreateKeyPair returned invalid data"
    | some kn =>
      if kn ≠ name then
        .error ("tried to create key named '" ++ name ++ "' but generated key was called '"
                ++ kn ++ "'")
      else
        match out.KeyMaterial with
        | none => .error "CreateKeyPair returned an empty key"
        | some km =>
          if km = "" then .error "CreateKeyPair returned an empty key" else .ok km

/-- Adapter operation Client.DeleteKey, ec2.go lines 32-35. -/
def Client.DeleteKey (c : Client) (name : String) : Except String Unit :=
  match c.EC2.deleteKeyPair name with
  | .error err => .error err
  | .ok _ => .ok ()

/-- One call through the atlasClient or awsClient interface, with the
    arguments the controller passed. -/
inductive AdapterCall where
  | getLatestAMIs (boxName : String)
  | createKey (name : String)
  | deleteKey (name : String)
  | listKeys (keyNamePre : String)
  | storeObject (name bytes downloadFileName contentType : String)
  | deleteObject (name : String)
  | urlForObject (name : String)
  | createStack (name template : String) (parameters : List (String × String))
  | deleteStack (name : String)
  | describeStack (name : String)
  | getHostsFromStackID (stackID : String)
  deriving DecidableEq, Repr

/-- Fake of the atlasClient interface. -/
structure AtlasClientFake where
  getLatestAMIs : String → Except String (List (String × String))

/-- Fake of the awsClient interface consumed by the controller. -/
structure AWSClientFake where
  createKey : String → Except String String
  deleteKey : String → Except String Unit
  listKeys : String → Except String (List String)
  storeObject : String → String → String → String → Except String Unit
  deleteObject : String → Except String Unit
  urlForObject : String → String
  createStack : String → String → List (String × String) → Except String String
  deleteStack : String → Except String Unit
  describeStack : String → Except String (String × String × List (String × String))
  getHostsFromStackID : String → Except String (List (String × String))

structure Controller where
  AtlasClient : AtlasClientFake
  AWSClient : AWSClientFake
  VagrantBoxName : String
  Region : String
  Template : String

/-- Controller.CreateClassroom, ec2.go lines 83-127, returning its result
    together with the ordered adapter-call trace. -/
def Controller.CreateClassroom (c : Controller) (name : String) (number : Int) :
    Except String Unit × List AdapterCall :=
  if validName name then
    match c.AtlasClient.getLatestAMIs c.VagrantBoxName with
    | .error e => (.error e, [.getLatestAMIs c.VagrantBoxName])
    | .ok amiMap =>
      match amiMap.lookup c.Region with
      | none =>
        (.error ("Couldn't find AMI in region " ++ c.Region), [.getLatestAMIs c.VagrantBoxName])
      | some ami =>
        let prefixedName := prefixName name
        match c.AWSClient.createKey prefixedName with
        | .error e =>
          (.error e, [.getLatestAMIs c.VagrantBoxName, .createKey prefixedName])
        | .ok privateKeyPEMBytes =>
          let s3Name := "keys/" ++ prefixedName
          match c.AWSClient.storeObject s3Name privateKeyPEMBytes
              "bosh101_ssh_key.pem" "application/x-pem-file" with
          | .error e =>
            (.error e,
             [.getLatestAMIs c.VagrantBoxName, .createKey prefixedName, .urlForObject s3Name,
              .storeObject s3Name privateKeyPEMBytes "bosh101_ssh_key.pem"
                "application/x-pem-file"])
          | .ok _ =>
            let parameters : List (String × String) :=
              [("AMI", ami), ("KeyName", prefixedName), ("InstanceCount", goItoa number)]
            ((c.AWSClient.createStack prefixedName c.Template parameters).map fun _ => (),
             [.getLatestAMIs c.VagrantBoxName, .createKey prefixedName, .urlForObject s3Name,
              .storeObject s3Name privateKeyPEMBytes "bosh101_ssh_key.pem"
                "application/x-pem-file",
              .createStack prefixedName c.Template parameters])
  else
    (.error "invalid name: must match pattern ^[a-zA-Z][-a-zA-Z0-9]*$", [])

/-- Controller.DestroyClassroom, ec2.go lines 129-148. -/
def Controller.DestroyClassroom (c : Controller) (name : String) :
    Except String Unit × List AdapterCall :=
  let prefixedName := prefixName name
  match c.AWSClient.deleteStack prefixedName with
  | .error e => (.error e, [.deleteStack prefixedName])
  | .ok _ =>
    match c.AWSClient.deleteKey prefixedName with
    | .error e => (.error e, [.deleteStack prefixedName, .deleteKey prefixedName])
    | .ok _ =>
      let s3Name := "keys/" ++ prefixedName
      (c.AWSClient.deleteObject s3Name,
       [.deleteStack prefixedName, .deleteKey prefixedName, .deleteObject s3Name])

/-- Controller.ListClassrooms, ec2.go lines 150-167. -/
def Controller.ListClassrooms (c : Controller) (format : String) :
    Except String String × List AdapterCall :=
  match c.AWSClient.listKeys "classroom-" with
  | .error e => (.error e, [.listKeys "classroom-"])
  | .ok keys =>
    let stripped := keys.map fun k => trimPre k "classroom-"
    if format = "json" then
      (.ok (goMarshalIndentStringList stripped), [.listKeys "classroom-"])
    else if format = "plain" then
      (.ok (String.intercalate "\n" stripped), [.listKeys "classroom-"])
    else
      (.error "expected format to be either 'json' or 'plain'", [.listKeys "classroom-"])

/-- Controller.DescribeClassroom, ec2.go lines 169-213. -/
def Controller.DescribeClassroom (c : Controller) (name format : String) :
    Except String String × List AdapterCall :=
  let prefixedName := prefixName name
  match c.AWSClient.describeStack prefixedName with
  | .error e => (.error e, [.describeStack prefixedName])
  | .ok (status, stackID, parameters) =>
    let keyURL := c.AWSClient.urlForObject ("keys/" ++ prefixedName)
    match goAtoi ((parameters.lookup "InstanceCount").getD "") with
    | none =>
      (.error "malformed CloudFormation stack: missing or invalid parameter 'InstanceCount'",
       [.describeStack prefixedName, .urlForObject ("keys/" ++ prefixedName)])
    | some number =>
      match c.AWSClient.getHostsFromStackID stackID with
      | .error e =>
        (.error ("error fetching hosts for stack: " ++ e),
         [.describeStack prefixedName, .urlForObject ("keys/" ++ prefixedName),
          .getHostsFromStackID stackID])
      | .ok hosts =>
        let trace : List AdapterCall :=
          [.describeStack prefixedName, .urlForObject ("keys/" ++ prefixedName),
           .getHostsFromStackID stackID]
        if format = "json" then
          (.ok (descriptionJSON status number keyURL hosts), trace)
        else if format = "plain" then
          (.ok (plainDescription status number keyURL hosts), trace)
        else
          (.error "expected format to be either 'json' or 'plain'", trace)

/-! Concrete fakes used to instantiate the theorems below on closed inputs,
    in the style of the call-counting fake adapters the spec asks tests to
    use. -/

/-- An atlas fake that knows images for two regions, among them us-east-1. -/
def atlasOkFake : AtlasClientFake where
  getLatestAMIs := fun _ => .ok [("us-east-1", "ami-123"), ("us-west-2", "ami-456")]

/-- An atlas fake whose region-to-image mapping lacks us-east-1. -/
def atlasNoRegionFake : AtlasClientFake where
  getLatestAMIs := fun _ => .ok [("eu-west-1", "ami-789")]

/-- An AWS fake on which every operation succeeds. -/
def awsOkFake : AWSClientFake where
  createKey := fun _ => .ok "PEMDATA"
  deleteKey := fun _ => .ok ()
  listKeys := fun _ => .ok ["classroom-a", "classroom-b"]
  storeObject := fun _ _ _ _ => .ok ()
  deleteObject := fun _ => .ok ()
  urlForObject := fun n => "https://s3.example.com/" ++ n
  createStack := fun _ _ _ => .ok "stack-id-1"
  deleteStack := fun _ => .ok ()
  describeStack := fun _ => .ok ("CREATE_COMPLETE", "stack-id-1", [("InstanceCount", "3")])
  getHostsFromStackID := fun _ => .ok [("vm-0", "10.0.0.1")]

/-- Like awsOkFake but CreateKey fails. -/
def awsKeyFailFake : AWSClientFake :=
  { awsOkFake with createKey := fun _ => .error "keyfail" }

/-- Like awsOkFake but DeleteKey fails. -/
def awsDeleteKeyFailFake : AWSClientFake :=
  { awsOkFake with deleteKey := fun _ => .error "boom" }

/-- Like awsOkFake but DescribeStack reports a non-numeric InstanceCount. -/
def awsBadCountFake : AWSClientFake :=
  { awsOkFake with
      describeStack := fun _ => .ok ("CREATE_COMPLETE", "stack-id-1", [("InstanceCount", "abc")]) }

/-- An EC2 fake whose CreateKeyPair answers with a key name different from
    the requested one. -/
def ec2BadNameFake : EC2API where
  createKeyPair := fun _ => .ok { KeyName := some "other-key", KeyMaterial := some "MATERIAL" }
  deleteKeyPair := fun _ => .ok ()

def mkController (atlas : AtlasClientFake) (aws : AWSClientFake) : Controller where
  AtlasClient := atlas
  AWSClient := aws
  VagrantBoxName := "test-box"
  Region := "us-east-1"
  Template := "TEMPLATE"

/-- Claim C1: for every environment name rejected by the pattern
    ^[a-zA-Z][-a-zA-Z0-9]*$ and every instance count, CreateClassroom returns
    the descriptive validation error and performs no atlas or AWS adapter
    call at all. -/
theorem createClassroom_invalid_name_no_calls (c : Controller) (name : String) (number : Int)
    (h : validName name = false) :
    c.CreateClassroom name number =
      (.error "invalid name: must match pattern ^[a-zA-Z][-a-zA-Z0-9]*$", []) := by
  simp [Controller.CreateClassroom, h]

theorem createClassroom_invalid_name_no_calls_witness :
    validName "1bad" = false ∧
    (mkController atlasOkFake awsOkFake).CreateClassroom "1bad" 3 =
      (.error "invalid name: must match pattern ^[a-zA-Z][-a-zA-Z0-9]*$", []) :=
  ⟨by decide,
   createClassroom_invalid_name_no_calls (mkController atlasOkFake awsOkFake) "1bad" 3
     (by decide)⟩

/-- Claim C2: for every environment name, DestroyClassroom calls DeleteStack,
    DeleteKey and DeleteObject on the classroom-prefixed names in that exact
    order; the first error is returned and every later step is skipped. -/
theorem destroyClassroom_order_short_circuit (c : Controller) (name : String) :
    (∀ e, c.AWSClient.deleteStack (prefixName name) = .error e →
      c.DestroyClassroom name = (.error e, [.deleteStack (prefixName name)]))
  ∧ (∀ e, c.AWSClient.deleteStack (prefixName name) = .ok () →
      c.AWSClient.deleteKey (prefixName name) = .error e →
      c.DestroyClassroom name =
        (.error e, [.deleteStack (prefixName name), .deleteKey (prefixName name)]))
  ∧ (c.AWSClient.deleteStack (prefixName name) = .ok () →
      c.AWSClient.deleteKey (prefixName name) = .ok () →
      c.DestroyClassroom name =
        (c.AWSClient.deleteObject ("keys/" ++ prefixName name),
         [.deleteStack (prefixName name), .deleteKey (prefixName name),
          .deleteObject ("keys/" ++ prefixName name)])) := by
  refine ⟨fun e h => ?_, fun e h1 h2 => ?_, fun h1 h2 => ?_⟩ <;>
    simp [Controller.DestroyClassroom, *]

theorem destroyClassroom_order_short_circuit_witness :
    (mkController atlasOkFake awsDeleteKeyFailFake).DestroyClassroom "env" =
      (.error "boom", [.deleteStack "classroom-env", .deleteKey "classroom-env"]) := by
  exact (destroyClassroom_order_short_circuit
    (mkController atlasOkFake awsDeleteKeyFailFake) "env").2.1 "boom" rfl rfl

/-- Claim C3: for every valid environment name, when GetLatestAMIs succeeds
    but its mapping has no entry for the configured region, CreateClassroom
    fails with the region error and the only adapter call made is the image
    lookup: no CreateKey, StoreObject or CreateStack call occurs. -/
theorem createClassroom_missing_region (c : Controller) (name : String) (number : Int)
    (amiMap : List (String × String))
    (hname : validName name = true)
    (hami : c.AtlasClient.getLatestAMIs c.VagrantBoxName = .ok amiMap)
    (hregion : amiMap.lookup c.Region = none) :
    c.CreateClassroom name number =
      (.error ("Couldn't find AMI in region " ++ c.Region),
       [.getLatestAMIs c.VagrantBoxName]) := by
  simp [Controller.CreateClassroom, hname, hami, hregion]

theorem createClassroom_missing_region_witness :
    (mkController atlasNoRegionFake awsOkFake).CreateClassroom "env" 3 =
      (.error "Couldn't find AMI in region us-east-1", [.getLatestAMIs "test-box"]) :=
  createClassroom_missing_region (mkController atlasNoRegionFake awsOkFake) "env" 3
    [("eu-west-1", "ami-789")] (by decide) rfl (by decide)

/-- Claim C4: Client.CreateKey rejects a provider response carrying a nil key
    name, a key name different from the requested one, or nil or empty key
    material, and returns the key material otherwise; and when the createKey
    adapter call fails inside CreateClassroom, the workflow returns that error
    having made no StoreObject or CreateStack call. -/
theorem createKey_validation_and_abort (cl : Client) (c : Controller)
    (keyName name : String) (number : Int) (e : String) :
    ((∀ out, cl.EC2.createKeyPair keyName = .ok out →
        (out.KeyName = none →
          cl.CreateKey keyName = .error "CreateKeyPair returned invalid data")
      ∧ (∀ kn, out.KeyName = some kn → kn ≠ keyName →
          cl.CreateKey keyName =
            .error ("tried to create key named '" ++ keyName
                    ++ "' but generated key was called '" ++ kn ++ "'"))
      ∧ (out.KeyName = some keyName → out.KeyMaterial = none →
          cl.CreateKey keyName = .error "CreateKeyPair returned an empty key")
      ∧ (out.KeyName = some keyName → out.KeyMaterial = some "" →
          cl.CreateKey keyName = .error "CreateKeyPair returned an empty key")
      ∧ (∀ km, out.KeyName = some keyName → out.KeyMaterial = some km → km ≠ "" →
          cl.CreateKey keyName = .ok km)))
  ∧ (∀ amiMap ami, validName name = true →
      c.AtlasClient.getLatestAMIs c.VagrantBoxName = .ok amiMap →
      amiMap.lookup c.Region = some ami →
      c.AWSClient.createKey (prefixName name) = .error e →
      c.CreateClassroom name number =
        (.error e, [.getLatestAMIs c.VagrantBoxName, .createKey (prefixName name)])) := by
  constructor
  · intro out hout
    refine ⟨?_, ?_, ?_, ?_, ?_⟩
    · intro h
      simp [Client.CreateKey, hout, h]
    · intro kn h hne
      simp [Client.CreateKey, hout, h, hne]
    · intro h1 h2
      simp [Client.CreateKey, hout, h1, h2]
    · intro h1 h2
      simp [Client.CreateKey, hout, h1, h2]
    · intro km h1 h2 hne
      simp [Client.CreateKey, hout, h1, h2, hne]
  · intro amiMap ami hname hami hreg hkey
    simp [Controller.CreateClassroom, hname, hami, hreg, hkey]

theorem createKey_validation_and_abort_witness :
    Client.CreateKey ⟨ec2BadNameFake⟩ "classroom-env" =
      .error "tried to create key named 'classroom-env' but generated key was called 'other-key'"
    ∧ (mkController atlasOkFake awsKeyFailFake).CreateClassroom "env" 3 =
      (.error "keyfail", [.getLatestAMIs "test-box", .createKey "classroom-env"]) := by
  have h := createKey_validation_and_abort ⟨ec2BadNameFake⟩
    (mkController atlasOkFake awsKeyFailFake) "classroom-env" "env" 3 "keyfail"
  exact ⟨(h.1 _ rfl).2.1 "other-key" rfl (by decide),
         h.2 [("us-east-1", "ami-123"), ("us-west-2", "ami-456")] "ami-123"
           (by decide) rfl rfl rfl⟩

/-- Claim C5: for every name and format, when DescribeStack succeeds but the
    parameter map has no InstanceCount entry, or its value does not parse as
    an integer, DescribeClassroom fails with the malformed-CloudFormation-
    stack error naming the parameter instead of panicking or defaulting. -/
theorem describeClassroom_malformed_count (c : Controller)
    (name format status stackID : String) (parameters : List (String × String))
    (hds : c.AWSClient.describeStack (prefixName name) = .ok (status, stackID, parameters))
    (hbad : parameters.lookup "InstanceCount" = none
      ∨ ∃ v, parameters.lookup "InstanceCount" = some v ∧ goAtoi v = none) :
    c.DescribeClassroom name format =
      (.error "malformed CloudFormation stack: missing or invalid parameter 'InstanceCount'",
       [.describeStack (prefixName name), .urlForObject ("keys/" ++ prefixName name)]) := by
  rcases hbad with h | ⟨v, hv, hparse⟩
  · simp [Controller.DescribeClassroom, hds, h, (by decide : goAtoi "" = none)]
  · simp [Controller.DescribeClassroom, hds, hv, hparse]

theorem describeClassroom_malformed_count_witness :
    goAtoi "abc" = none
    ∧ (mkController atlasOkFake awsBadCountFake).DescribeClassroom "env" "json" =
      (.error "malformed CloudFormation stack: missing or invalid parameter 'InstanceCount'",
       [.describeStack "classroom-env", .urlForObject "keys/classroom-env"]) :=
  ⟨by decide,
   describeClassroom_malformed_count (mkController atlasOkFake awsBadCountFake) "env" "json"
     "CREATE_COMPLETE" "stack-id-1" [("InstanceCount", "abc")] rfl
     (Or.inr ⟨"abc", rfl, by decide⟩)⟩

/-- Claim C6: ListClassrooms strips the classroom- prefix from every keypair
    name ListKeys returns; format plain joins the stripped names with
    newlines, format json renders them as an indented JSON array, and any
    other format yields an error. -/
theorem map_trimPre_dropChars (keys : List String)
    (hpre : ∀ k ∈ keys, hasPre k "classroom-" = true) :
    keys.map (fun k => trimPre k "classroom-") = keys.map (fun k => dropChars k 10) := by
  induction keys with
  | nil => rfl
  | cons k ks ih =>
    have hk := hpre k (List.mem_cons_self k ks)
    have hks := ih fun x hx => hpre x (List.mem_cons_of_mem _ hx)
    simp only [List.map_cons]
    rw [hks]
    simp [trimPre, hk, (by decide : "classroom-".data.length = 10)]

theorem listClassrooms_formats (c : Controller) (keys : List String)
    (hlist : c.AWSClient.listKeys "classroom-" = .ok keys)
    (hpre : ∀ k ∈ keys, hasPre k "classroom-" = true) :
    (c.ListClassrooms "plain" =
      (.ok (String.intercalate "\n" (keys.map fun k => dropChars k 10)),
       [.listKeys "classroom-"]))
  ∧ (c.ListClassrooms "json" =
      (.ok (goMarshalIndentStringList (keys.map fun k => dropChars k 10)),
       [.listKeys "classroom-"]))
  ∧ (∀ format, format ≠ "json" → format ≠ "plain" →
      c.ListClassrooms format =
        (.error "expected format to be either 'json' or 'plain'",
         [.listKeys "classroom-"])) := by
  have hmap := map_trimPre_dropChars keys hpre
  refine ⟨?_, ?_, ?_⟩
  · simp [Controller.ListClassrooms, hlist, hmap]
  · simp [Controller.ListClassrooms, hlist, hmap]
  · intro format h1 h2
    simp [Controller.ListClassrooms, hlist, h1, h2]

theorem listClassrooms_formats_witness :
    (mkController atlasOkFake awsOkFake).ListClassrooms "plain" =
      (.ok "a\nb", [.listKeys "classroom-"])
    ∧ (mkController atlasOkFake awsOkFake).ListClassrooms "json" =
      (.ok "[\n    \"a\",\n    \"b\"\n]", [.listKeys "classroom-"])
    ∧ (mkController atlasOkFake awsOkFake).ListClassrooms "xml" =
      (.error "expected format to be either 'json' or 'plain'",
       [.listKeys "classroom-"]) := by
  have h := listClassrooms_formats (mkController atlasOkFake awsOkFake)
    ["classroom-a", "classroom-b"] rfl (by decide)
  exact ⟨h.1.trans rfl, h.2.1.trans rfl, h.2.2 "xml" (by decide) (by decide)⟩

/-- Claim C7: when DescribeStack succeeds, InstanceCount parses and the host
    lookup succeeds, DescribeClassroom renders the record status, number,
    ssh_key (the URL of object keys/classroom-name) and hosts: as indented
    JSON for format json, as the fixed-order labeled plain block with one
    host per line for format plain, and as an error for any other format. -/
theorem describeClassroom_success_rendering (c : Controller)
    (name status stackID countStr : String) (n : Int)
    (parameters hosts : List (String × String))
    (hds : c.AWSClient.describeStack (prefixName name) = .ok (status, stackID, parameters))
    (hcount : parameters.lookup "InstanceCount" = some countStr)
    (hparse : goAtoi countStr = some n)
    (hhosts : c.AWSClient.getHostsFromStackID stackID = .ok hosts) :
    (c.DescribeClassroom name "json" =
      (.ok (descriptionJSON status n
              (c.AWSClient.urlForObject ("keys/" ++ prefixName name)) hosts),
       [.describeStack (prefixName name), .urlForObject ("keys/" ++ prefixName name),
        .getHostsFromStackID stackID]))
  ∧ (c.DescribeClassroom name "plain" =
      (.ok (plainDescription status n
              (c.AWSClient.urlForObject ("keys/" ++ prefixName name)) hosts),
       [.describeStack (prefixName name), .urlForObject ("keys/" ++ prefixName name),
        .getHostsFromStackID stackID]))
  ∧ (∀ format, format ≠ "json" → format ≠ "plain" →
      c.DescribeClassroom name format =
        (.error "expected format to be either 'json' or 'plain'",
         [.describeStack (prefixName name), .urlForObject ("keys/" ++ prefixName name),
          .getHostsFromStackID stackID])) := by
  refine ⟨?_, ?_, fun format h1 h2 => ?_⟩ <;>
    simp [Controller.DescribeClassroom, hds, hcount, hparse, hhosts, *]

theorem describeClassroom_success_rendering_witness :
    (mkController atlasOkFake awsOkFake).DescribeClassroom "env" "json" =
      (.ok ("\x7b\n    \"status\": \"CREATE_COMPLETE\",\n    \"number\": 3,\n    \"ssh_key\": \"https://s3.example.com/keys/classroom-env\",\n    \"hosts\": \x7b\n        \"vm-0\": \"10.0.0.1\"\n    \x7d\n\x7d"),
       [.describeStack "classroom-env", .urlForObject "keys/classroom-env",
        .getHostsFromStackID "stack-id-1"])
    ∧ (mkController atlasOkFake awsOkFake).DescribeClassroom "env" "plain" =
      (.ok "status: CREATE_COMPLETE\nnumber: 3\nssh_key: https://s3.example.com/keys/classroom-env\nhosts:\nvm-0\t10.0.0.1",
       [.describeStack "classroom-env", .urlForObject "keys/classroom-env",
        .getHostsFromStackID "stack-id-1"])
    ∧ (mkController atlasOkFake awsOkFake).DescribeClassroom "env" "yaml" =
      (.error "expected format to be either 'json' or 'plain'",
       [.describeStack "classroom-env", .urlForObject "keys/classroom-env",
        .getHostsFromStackID "stack-id-1"]) := by
  have h := describeClassroom_success_rendering (mkController atlasOkFake awsOkFake)
    "env" "CREATE_COMPLETE" "stack-id-1" "3" 3 [("InstanceCount", "3")]
    [("vm-0", "10.0.0.1")] rfl rfl (by decide) rfl
  exact ⟨h.1.trans rfl, h.2.1.trans rfl, h.2.2 "yaml" (by decide) (by decide)⟩

/-- Claim C8 is refuted by the code: the environment name 1bad is rejected by
    the pattern, yet DestroyClassroom neither validates it nor fails; it runs
    all three deletion calls and succeeds, and DescribeClassroom likewise
    calls the adapter on the prefixed name. -/
theorem workflows_validate_name_cex :
    validName "1bad" = false
    ∧ (mkController atlasOkFake awsOkFake).DestroyClassroom "1bad" =
      (.ok (), [.deleteStack "classroom-1bad", .deleteKey "classroom-1bad",
                .deleteObject "keys/classroom-1bad"])
    ∧ ((mkController atlasOkFake awsOkFake).DescribeClassroom "1bad" "plain").2 =
      [.describeStack "classroom-1bad", .urlForObject "keys/classroom-1bad",
       .getHostsFromStackID "stack-id-1"] :=
  ⟨by decide, rfl, rfl⟩

/-- Claim C8 amended: only CreateClassroom validates the environment name
    against the pattern, failing before any adapter call; DestroyClassroom
    and DescribeClassroom perform no name validation and their first action
    is an adapter call on the prefixed name even when the name is invalid. -/
theorem name_validation_amended (c : Controller) (name format : String) (number : Int)
    (h : validName name = false) :
    c.CreateClassroom name number =
      (.error "invalid name: must match pattern ^[a-zA-Z][-a-zA-Z0-9]*$", [])
  ∧ (c.DestroyClassroom name).2.head? = some (.deleteStack (prefixName name))
  ∧ (c.DescribeClassroom name format).2.head? = some (.describeStack (prefixName name)) := by
  refine ⟨by simp [Controller.CreateClassroom, h], ?_, ?_⟩
  · unfold Controller.DestroyClassroom
    cases hds : c.AWSClient.deleteStack (prefixName name) with
    | error e => simp [hds]
    | ok u =>
      cases hdk : c.AWSClient.deleteKey (prefixName name) with
      | error e => simp [hds, hdk]
      | ok u => simp [hds, hdk]
  · unfold Controller.DescribeClassroom
    cases hds : c.AWSClient.describeStack (prefixName name) with
    | error e => simp [hds]
    | ok triple =>
      obtain ⟨status, stackID, parameters⟩ := triple
      cases hparse : goAtoi ((parameters.lookup "InstanceCount").getD "") with
      | none => simp [hds, hparse]
      | some n =>
        cases hh : c.AWSClient.getHostsFromStackID stackID with
        | error e => simp [hds, hparse, hh]
        | ok hosts =>
          simp only [hds, hparse, hh]
          split
          · rfl
          · split
            · rfl
            · rfl

theorem name_validation_amended_witness :
    (mkController atlasOkFake awsOkFake).CreateClassroom "1bad" 5 =
      (.error "invalid name: must match pattern ^[a-zA-Z][-a-zA-Z0-9]*$", [])
  ∧ ((mkController atlasOkFake awsOkFake).DestroyClassroom "1bad").2.head? =
      some (.deleteStack "classroom-1bad")
  ∧ ((mkController atlasOkFake awsOkFake).DescribeClassroom "1bad" "plain").2.head? =
      some (.describeStack "classroom-1bad") :=
  name_validation_amended (mkController atlasOkFake awsOkFake) "1bad" "plain" 5 (by decide)

/-- For claim C9: does one adapter call address only resources named by the
    classroom naming scheme for the given environment name. -/
def callRespectsNaming (name : String) : AdapterCall → Bool
  | .getLatestAMIs _ => true
  | .createKey n => n == prefixName name
  | .deleteKey n => n == prefixName name
  | .listKeys p => p == "classroom-"
  | .storeObject n _ _ _ => n == "keys/" ++ prefixName name
  | .deleteObject n => n == "keys/" ++ prefixName name
  | .urlForObject n => n == "keys/" ++ prefixName name
  | .createStack n _ _ => n == prefixName name
  | .deleteStack n => n == prefixName name
  | .describeStack n => n == prefixName name
  | .getHostsFromStackID _ => true

/-- Claim C9: every adapter call made by CreateClassroom, DestroyClassroom or
    DescribeClassroom addresses the keypair and the stack as
    classroom-name and the stored key object as keys/classroom-name, so the
    three workflows address exactly the same resources. -/
theorem naming_contract (c : Controller) (name format : String) (number : Int) :
    ((c.CreateClassroom name number).2.all (callRespectsNaming name) = true)
  ∧ ((c.DestroyClassroom name).2.all (callRespectsNaming name) = true)
  ∧ ((c.DescribeClassroom name format).2.all (callRespectsNaming name) = true) := by
  refine ⟨?_, ?_, ?_⟩
  · cases hv : validName name with
    | false => simp [Controller.CreateClassroom, hv]
    | true =>
      cases hami : c.AtlasClient.getLatestAMIs c.VagrantBoxName with
      | error e => simp [Controller.CreateClassroom, hv, hami, callRespectsNaming]
      | ok amiMap =>
        cases hreg : amiMap.lookup c.Region with
        | none => simp [Controller.CreateClassroom, hv, hami, hreg, callRespectsNaming]
        | some ami =>
          cases hkey : c.AWSClient.createKey (prefixName name) with
          | error e =>
            simp [Controller.CreateClassroom, hv, hami, hreg, hkey, callRespectsNaming]
          | ok km =>
            cases hst : c.AWSClient.storeObject ("keys/" ++ prefixName name) km
                "bosh101_ssh_key.pem" "application/x-pem-file" with
            | error e =>
              simp [Controller.CreateClassroom, hv, hami, hreg, hkey, hst, callRespectsNaming]
            | ok u =>
              simp [Controller.CreateClassroom, hv, hami, hreg, hkey, hst, callRespectsNaming]
  · unfold Controller.DestroyClassroom
    cases hds : c.AWSClient.deleteStack (prefixName name) with
    | error e => simp [hds, callRespectsNaming]
    | ok u =>
      cases hdk : c.AWSClient.deleteKey (prefixName name) with
      | error e => simp [hds, hdk, callRespectsNaming]
      | ok u => simp [hds, hdk, callRespectsNaming]
  · unfold Controller.DescribeClassroom
    cases hds : c.AWSClient.describeStack (prefixName name) with
    | error e => simp [hds, callRespectsNaming]
    | ok triple =>
      obtain ⟨status, stackID, parameters⟩ := triple
      cases hparse : goAtoi ((parameters.lookup "InstanceCount").getD "") with
      | none => simp [hds, hparse, callRespectsNaming]
      | some n =>
        cases hh : c.AWSClient.getHostsFromStackID stackID with
        | error e => simp [hds, hparse, hh, callRespectsNaming]
        | ok hosts =>
          simp only [hds, hparse, hh]
          split
          · simp [callRespectsNaming]
          · split
            · simp [callRespectsNaming]
            · simp [callRespectsNaming]

/-- Claim C10: CreateClassroom never validates the desired instance count:
    every integer, zero and negative values included, is stringified with
    strconv.Itoa and passed unchanged as the InstanceCount parameter of the
    CreateStack call. -/
theorem createClassroom_count_passthrough (c : Controller) (name : String) (number : Int)
    (amiMap : List (String × String)) (ami km : String)
    (hname : validName name = true)
    (hami : c.AtlasClient.getLatestAMIs c.VagrantBoxName = .ok amiMap)
    (hreg : amiMap.lookup c.Region = some ami)
    (hkey : c.AWSClient.createKey (prefixName name) = .ok km)
    (hst : c.AWSClient.storeObject ("keys/" ++ prefixName name) km
      "bosh101_ssh_key.pem" "application/x-pem-file" = .ok ()) :
    AdapterCall.createStack (prefixName name) c.Template
        [("AMI", ami), ("KeyName", prefixName name), ("InstanceCount", goItoa number)]
      ∈ (c.CreateClassroom name number).2 := by
  simp [Controller.CreateClassroom, hname, hami, hreg, hkey, hst]

theorem createClassroom_count_passthrough_witness :
    goItoa (-7) = "-7"
    ∧ AdapterCall.createStack "classroom-env" "TEMPLATE"
        [("AMI", "ami-123"), ("KeyName", "classroom-env"), ("InstanceCount", "-7")]
      ∈ ((mkController atlasOkFake awsOkFake).CreateClassroom "env" (-7)).2 := by
  refine ⟨rfl, ?_⟩
  have h := createClassroom_count_passthrough (mkController atlasOkFake awsOkFake) "env" (-7)
    [("us-east-1", "ami-123"), ("us-west-2", "ami-456")] "ami-123" "PEMDATA"
    (by decide) rfl rfl rfl rfl
  exact h

end BoshClassroom
